import Mathlib

/-!
# Verification development for the `python-ubersmith` client library

Shallow embedding of the request/response pipeline of the `ubersmith`
package: the request handler's retry and error-classification logic
(`ubersmith/api.py`), the response wrappers (`DictResponse`,
`IntResponse`, `FileResponse`), the call abstraction
(`ubersmith/calls/__init__.py`) and the method index
(`ubersmith/index/__init__.py`).

Machine integers are modelled as `Int`/`Nat`; Python floats produced by
`float()` and true division appear only in contexts where both sides of
a claim compute the same application of the same primitive, so they are
modelled as `Rat`.  Python exceptions are modelled with `Except`/`Option`
result types.
-/

namespace Ubersmith

/-- `listHasPre needle hay` decides whether `needle` is a prefix of `hay`
(character lists).  Used to model Python's `in` substring test. -/
def listHasPre : List Char → List Char → Bool
  | [], _ => true
  | _ :: _, [] => false
  | a :: as, b :: bs => a == b && listHasPre as bs

/-- `listHasSub needle hay` decides whether `needle` occurs as a contiguous
substring of `hay`. -/
def listHasSub (needle : List Char) : List Char → Bool
  | [] => needle.isEmpty
  | b :: bs => listHasPre needle (b :: bs) || listHasSub needle bs

/-- Python's `needle in hay` on strings: substring containment. -/
def strContains (hay needle : String) : Bool :=
  listHasSub needle.data hay.data

/-- The transport-level response of one HTTP attempt, together with the
fields of the decoded JSON envelope `{status, error_code, error_message,
data}`.  `contentType` is `headers.get('content-type')` (`none` when the
header is absent); `content` is the raw body; the envelope fields are
meaningful when the body is JSON: `statusTruthy` is the truthiness of
`json.get('status')` (absent or falsy value gives `false`), `errorCode`
is `json.get('error_code')` and `errorMessage` is
`json.get('error_message')` (absent gives `none`). -/
structure TransportResponse where
  contentType : Option String
  content : String
  statusTruthy : Bool
  errorCode : Option Int
  errorMessage : Option String
  deriving Repr, DecidableEq

/-- `RequestHandler._is_token_response`: content-type (defaulting to `''`)
contains `'text/html'` and the body contains `'Updating Token'`. -/
def isTokenResponse (r : TransportResponse) : Bool :=
  strContains (r.contentType.getD "") "text/html" &&
    strContains r.content "Updating Token"

/-- The exact maintenance message tested by `process_request`. -/
def maintenanceMessage : String :=
  "We are currently undergoing maintenance, please check back shortly."

/-- Exceptions raised by the pipeline (`ubersmith.exceptions`), each
carrying what the code passes to the constructor. -/
inductive UberError where
  /-- `RequestError`: requested method is not valid. -/
  | requestError
  /-- `UpdatingTokenResponse`: three consecutive token pages. -/
  | updatingTokenResponse
  /-- `MaintenanceResponse(response=resp._json)`. -/
  | maintenanceResponse (body : TransportResponse)
  /-- `ResponseError(response=resp._json)`. -/
  | responseError (body : TransportResponse)
  deriving Repr, DecidableEq

/-- One pass of the `for i in range(attempts)` retry loop of
`process_request`, over the list of remaining loop indices.  Returns
`(sends, sleeps, terminal)`: how many `_send_request` calls were made,
the list of sleep durations in seconds in order, and `some r` when the
loop exited by `break` with response `r` (or `none` when it raised
`UpdatingTokenResponse`).  `rs i` is the transport response of the
`i`-th send. -/
def retryLoop (rs : Nat → TransportResponse) (attempts : Nat) :
    List Nat → Nat × List Nat × Option TransportResponse
  | [] => (0, [], none)
  | i :: rest =>
    if isTokenResponse (rs i) then
      if i < attempts - 1 then
        -- time.sleep(2); continue
        ((retryLoop rs attempts rest).1 + 1,
          2 :: (retryLoop rs attempts rest).2.1,
          (retryLoop rs attempts rest).2.2)
      else
        -- raise UpdatingTokenResponse
        (1, [], none)
    else
      -- break
      (1, [], some (rs i))

/-- The error classification at the end of `process_request`: when the
content-type header equals `'application/json'` exactly and the decoded
body's `status` is falsy, raise `MaintenanceResponse` on the maintenance
signature (`error_code == 1` and the exact maintenance message) and
`ResponseError` otherwise; in every other case return the response. -/
def classifyResponse (r : TransportResponse) : Except UberError TransportResponse :=
  if r.contentType = some "application/json" then
    if !r.statusTruthy then
      if r.errorCode = some 1 ∧ r.errorMessage = some maintenanceMessage then
        .error (.maintenanceResponse r)
      else
        .error (.responseError r)
    else
      .ok r
  else
    .ok r

deriving instance DecidableEq for Except

/-- The observable outcome of `RequestHandler.process_request`: the value
returned or exception raised, the number of `_send_request` calls, and
the sleeps performed (durations in seconds, in order). -/
structure ProcessResult where
  outcome : Except UberError TransportResponse
  sends : Nat
  sleeps : List Nat
  deriving Repr, DecidableEq

/-- `RequestHandler.process_request(method, data)`: validate the method
against the handler's `METHODS` registry (raising `RequestError` before
any send), then run the three-attempt retry loop and classify the
terminal response.  `methods` is the key list of the handler's `METHODS`
mapping; `rs i` is the transport response the `i`-th send would get. -/
def processRequest (methods : List String) (method : String)
    (rs : Nat → TransportResponse) : ProcessResult :=
  if ¬ methods.contains method then
    ⟨.error .requestError, 0, []⟩
  else
    match (retryLoop rs 3 (List.range 3)).2.2 with
    | none =>
      ⟨.error .updatingTokenResponse, (retryLoop rs 3 (List.range 3)).1,
        (retryLoop rs 3 (List.range 3)).2.1⟩
    | some r =>
      ⟨classifyResponse r, (retryLoop rs 3 (List.range 3)).1,
        (retryLoop rs 3 (List.range 3)).2.1⟩

/-! ## Python values and the decoded `data` payload -/

/-- A decoded JSON / Python value, as far as the cleaning step needs to
distinguish them.  `vBool` is separate from `vInt` because Python's
`type(True)` is `bool`, not `int`. -/
inductive PyVal where
  | vNone
  | vBool (b : Bool)
  | vInt (n : Int)
  | vStr (s : String)
  | vList (l : List PyVal)
  | vDict (d : List (String × PyVal))
  deriving Repr

/-- The Python runtime type tags relevant to wrapper selection. -/
inductive PyType where
  | tNone
  | tBool
  | tInt
  | tStr
  | tList
  | tDict
  deriving Repr, DecidableEq

/-- `type(v)` restricted to the tags of `PyType`. -/
def PyVal.pyType : PyVal → PyType
  | .vNone => .tNone
  | .vBool _ => .tBool
  | .vInt _ => .tInt
  | .vStr _ => .tStr
  | .vList _ => .tList
  | .vDict _ => .tDict

/-! ## Response cleaning and wrapper selection (`BaseCall.clean`) -/

/-- The raw response as seen by the call layer: the transport response
of `process_request` plus the decoded envelope's `data` field.
`BaseResponse._data` returns that `data` value.

Modelled from the spec: `ubersmith.utils.ObjDict` (the wrapping that
`BaseResponse._data` applies) is absent from the sources; per the spec,
`_data` "exposes … the `data` field extracted from it (or a previously
substituted 'cleaned' value)", so the wrapper is modelled as the
identity on the underlying value. -/
structure RawResponse where
  transport : TransportResponse
  data : PyVal

/-- The typed response produced by `BaseCall.clean`: the wrapper class
chosen by `{dict: DictResponse, int: IntResponse}.get(type(cleaned),
BaseResponse)` when the content-type is `'application/json'`, and
`FileResponse` otherwise.  The JSON wrappers carry the raw response and
the cleaned value stored by `_from_cleaned`. -/
inductive TypedResponse where
  | dictR (raw : RawResponse) (cleaned : PyVal)
  | intR (raw : RawResponse) (cleaned : PyVal)
  | baseR (raw : RawResponse) (cleaned : PyVal)
  | fileR (raw : RawResponse)

/-- `_data` of the typed response: the cleaned value for the JSON
wrappers, and `FileResponse._data = self._response.content` (the raw
transport body) for the file wrapper. -/
def TypedResponse.dataOf : TypedResponse → PyVal ⊕ String
  | .dictR _ c => .inl c
  | .intR _ c => .inl c
  | .baseR _ c => .inl c
  | .fileR raw => .inr raw.transport.content

/-- `BaseCall.clean`: when `self.response._type == 'application/json'`,
deep-copy the data (identity in a pure model), apply the per-call
`cleaner` when one is set, and pick the wrapper by the exact runtime
type of the cleaned value; otherwise build a `FileResponse` over the
raw transport response. -/
def clean (cleaner : Option (PyVal → PyVal)) (r : RawResponse) : TypedResponse :=
  if r.transport.contentType = some "application/json" then
    match (cleaner.getD id) r.data |>.pyType with
    | .tDict => .dictR r ((cleaner.getD id) r.data)
    | .tInt => .intR r ((cleaner.getD id) r.data)
    | _ => .baseR r ((cleaner.getD id) r.data)
  else
    .fileR r

/-! ## Required-field validation and `BaseCall.render` -/

/-- A member of `BaseCall.required_fields`: either a flat field name or
a field-group given as a collection of names. -/
inductive ReqField where
  | flat (name : String)
  | group (names : List String)
  deriving Repr, DecidableEq

/-- The elements of `set(required_fields) - set(request_data)` in list
order: a flat field is missing when its name is not a supplied key; a
group (a tuple) is never equal to a string key, so it is always in the
difference.  CPython iterates this set in hash order; the embedding
determinizes that order to the order of `required_fields`. -/
def missingFields (required : List ReqField) (keys : List String) : List ReqField :=
  required.filter fun f =>
    match f with
    | .flat n => !keys.contains n
    | .group _ => true

/-- `BaseCall.validate`: iterate over the missing required fields; the
loop body returns on its first iteration — `bool(set(field) &
set(request_data))` for a collection, `False` for a string — and the
loop falls through to `return True` only when no field is missing. -/
def validate (required : List ReqField) (keys : List String) : Bool :=
  match missingFields required keys with
  | [] => true
  | .flat _ :: _ => false
  | .group g :: _ => g.any keys.contains

/-- The validation predicate as the claim states it: every flat required
field is a supplied key and every field-group has non-empty
intersection with the supplied keys.  (Stated from the claim's words,
for comparison with `validate`, which is translated from the code.) -/
def validateSpec (required : List ReqField) (keys : List String) : Bool :=
  required.all fun f =>
    match f with
    | .flat n => keys.contains n
    | .group g => g.any keys.contains

/-- The value returned (or exception raised) by `BaseCall.render`. -/
inductive RenderOutcome where
  /-- `raise ValidationError`. -/
  | validationError
  /-- An exception propagated from `process_request`. -/
  | uberError (e : UberError)
  /-- The response returned: `render` returns `self.response`, the raw
  (uncleaned) `BaseResponse` set by `process_request` — the call to
  `self.clean()` in `render` is commented out. -/
  | rawResponse (r : RawResponse)

/-- `BaseCall.render`: `validate()` (raising `ValidationError` on
`False`), then `process_request()` (delegating to the request handler),
then return `self.response` — with no cleaning step.  `dataOf i` is the
decoded `data` payload of the response to the `i`-th send.  Returns the
outcome together with the number of network sends performed. -/
def render (required : List ReqField) (keys : List String)
    (methods : List String) (method : String)
    (rs : Nat → TransportResponse) (dataOf : Nat → PyVal) :
    RenderOutcome × Nat :=
  if !validate required keys then
    (.validationError, 0)
  else
    match (processRequest methods method rs).outcome with
    | .error e => (.uberError e, (processRequest methods method rs).sends)
    | .ok r =>
      (.rawResponse ⟨r, dataOf ((processRequest methods method rs).sends - 1)⟩,
        (processRequest methods method rs).sends)

/-! ## Python integer primitives

Each primitive is the operation Python applies to bare `int` operands.
The wrapper methods of `IntResponse` delegate to the same primitives,
which is what the source code's `int(self) + other` style expresses. -/

/-- Python `//` on ints: floor division. -/
def pyFloorDiv (a b : Int) : Int := Int.fdiv a b

/-- Python `%` on ints: remainder with the divisor's sign. -/
def pyModulo (a b : Int) : Int := Int.fmod a b

/-- Python `divmod` on ints: `(a // b, a % b)`. -/
def pyDivMod (a b : Int) : Int × Int := (pyFloorDiv a b, pyModulo a b)

/-- Python `float(n)` (floats modelled as rationals; see the module
doc comment). -/
def pyFloat (n : Int) : Rat := (n : Rat)

/-- Python `/` with a float operand (true division). -/
def pyTrueDiv (a : Rat) (b : Int) : Rat := a / (b : Rat)

/-- Python `**` on ints with a non-negative exponent. -/
def pyPow (a : Int) (b : Nat) : Int := a ^ b

/-- Python `<<` on ints (non-negative shift count): `a * 2 ** b`. -/
def pyShiftL (a : Int) (b : Nat) : Int := a * 2 ^ b

/-- Python `>>` on ints (non-negative shift count): arithmetic shift,
i.e. floor division by `2 ** b`. -/
def pyShiftR (a : Int) (b : Nat) : Int := Int.fdiv a (2 ^ b)

/-- Python `~n` on ints: `-(n + 1)`. -/
def pyInvert (a : Int) : Int := Int.lnot a

/-- Python `&` on ints (two's-complement bitwise and). -/
def pyAnd (a b : Int) : Int := Int.land a b

/-- Python `|` on ints. -/
def pyOr (a b : Int) : Int := Int.lor a b

/-- Python `^` on ints. -/
def pyXor (a b : Int) : Int := Int.xor a b

/-- Python `==` on ints. -/
def pyEq (a b : Int) : Bool := decide (a = b)

/-- Python `<` on ints. -/
def pyLt (a b : Int) : Bool := decide (a < b)

/-- Python `<=` on ints. -/
def pyLe (a b : Int) : Bool := decide (a ≤ b)

/-- Python `>` on ints. -/
def pyGt (a b : Int) : Bool := decide (b < a)

/-- Python `>=` on ints. -/
def pyGe (a b : Int) : Bool := decide (b ≤ a)

/-! ## `IntResponse` -/

/-- `IntResponse`: wraps an integer `data` value (`self._data`, the
cleaned value stored by `_from_cleaned`). -/
structure IntResponse where
  data : Int
  deriving Repr, DecidableEq

namespace IntResponse

/-- `numerator` property: `self._data`. -/
def numerator (w : IntResponse) : Int := w.data

/-- `denominator` property: the literal `1`. -/
def denominator (_ : IntResponse) : Int := 1

/-- `real` property: `self._data`. -/
def real (w : IntResponse) : Int := w.data

/-- `imag` property: the literal `0`. -/
def imag (_ : IntResponse) : Int := 0

/-- `__int__` (also `__index__`, `__long__`, `__trunc__`): `self._data`. -/
def toInt (w : IntResponse) : Int := w.data

/-- `__index__` is assigned `__int__`. -/
def index (w : IntResponse) : Int := toInt w

/-- `__float__`: `float(self._data)`. -/
def toFloat (w : IntResponse) : Rat := pyFloat w.data

/-- `__eq__`: `self._data == other`. -/
def eq (w : IntResponse) (other : Int) : Bool := pyEq w.data other

/-- `__lt__`: `self._data < other`. -/
def lt (w : IntResponse) (other : Int) : Bool := pyLt w.data other

/-- `__le__`, derived by `total_ordering` from `__lt__` and `__eq__`.

Modelled from the spec: `ubersmith.compat.total_ordering` is absent
from the sources; the spec requires the comparisons derived from `<`
and `==`, which the standard-library decorator defines as
`a <= b  ⟺  a < b or a == b`. -/
def le (w : IntResponse) (other : Int) : Bool := lt w other || eq w other

/-- `__gt__`, derived by `total_ordering`: `not (a < b or a == b)`.

Modelled from the spec: see `IntResponse.le`. -/
def gt (w : IntResponse) (other : Int) : Bool := !(lt w other || eq w other)

/-- `__ge__`, derived by `total_ordering`: `not (a < b)`.

Modelled from the spec: see `IntResponse.le`. -/
def ge (w : IntResponse) (other : Int) : Bool := !(lt w other)

/-- `__add__` (and `__radd__`): `int(self) + other`. -/
def add (w : IntResponse) (other : Int) : Int := toInt w + other

/-- `__sub__`: `int(self) - other`. -/
def sub (w : IntResponse) (other : Int) : Int := toInt w - other

/-- `__rsub__`: `other - int(self)`. -/
def rsub (w : IntResponse) (other : Int) : Int := other - toInt w

/-- `__mul__` (and `__rmul__`): `int(self) * other`. -/
def mul (w : IntResponse) (other : Int) : Int := toInt w * other

/-- `__floordiv__`: `int(self) // other`. -/
def floordiv (w : IntResponse) (other : Int) : Int := pyFloorDiv (toInt w) other

/-- `__rfloordiv__`: `other // int(self)`. -/
def rfloordiv (w : IntResponse) (other : Int) : Int := pyFloorDiv other (toInt w)

/-- `__truediv__`: `float(self) / other`. -/
def truediv (w : IntResponse) (other : Int) : Rat := pyTrueDiv (toFloat w) other

/-- `__rtruediv__`: `other / float(self)` (an int divided by a float is
true division on the floats). -/
def rtruediv (w : IntResponse) (other : Int) : Rat := pyTrueDiv (pyFloat other) w.data

/-- `__mod__`: `int(self) % other`. -/
def mod (w : IntResponse) (other : Int) : Int := pyModulo (toInt w) other

/-- `__rmod__`: `other % int(self)`. -/
def rmod (w : IntResponse) (other : Int) : Int := pyModulo other (toInt w)

/-- `__pow__`: `int(self) ** other`. -/
def pow (w : IntResponse) (other : Nat) : Int := pyPow (toInt w) other

/-- `__rpow__`: `other ** int(self)` (non-negative wrapped exponent
modelled, as a negative exponent leaves the ints for floats). -/
def rpow (w : IntResponse) (other : Int) : Int := pyPow other w.data.toNat

/-- `__abs__`: `abs(self._data)`. -/
def absOp (w : IntResponse) : Int := |w.data|

/-- `__neg__`: `-self._data`. -/
def neg (w : IntResponse) : Int := -w.data

/-- `__pos__`: `self._data`. -/
def pos (w : IntResponse) : Int := w.data

/-- `__divmod__`: `(self // other, self % other)` — the tuple of the
wrapper's own `__floordiv__` and `__mod__`. -/
def divmod (w : IntResponse) (other : Int) : Int × Int :=
  (floordiv w other, mod w other)

/-- `__rdivmod__`: `(other // self, other % self)`, which dispatch to
`__rfloordiv__` and `__rmod__`. -/
def rdivmod (w : IntResponse) (other : Int) : Int × Int :=
  (rfloordiv w other, rmod w other)

/-- `__and__` (and `__rand__`): `self._data & other`. -/
def andOp (w : IntResponse) (other : Int) : Int := pyAnd w.data other

/-- `__or__` (and `__ror__`): `self._data | other`. -/
def orOp (w : IntResponse) (other : Int) : Int := pyOr w.data other

/-- `__xor__` (and `__rxor__`): `self._data ^ other`. -/
def xorOp (w : IntResponse) (other : Int) : Int := pyXor w.data other

/-- `__lshift__`: `self._data << other`. -/
def lshift (w : IntResponse) (other : Nat) : Int := pyShiftL w.data other

/-- `__rlshift__`: `other << self._data` (non-negative wrapped shift
count modelled, as a negative count raises). -/
def rlshift (w : IntResponse) (other : Int) : Int := pyShiftL other w.data.toNat

/-- `__rshift__`: `self._data >> other`. -/
def rshift (w : IntResponse) (other : Nat) : Int := pyShiftR w.data other

/-- `__rrshift__`: `other >> self._data`. -/
def rrshift (w : IntResponse) (other : Int) : Int := pyShiftR other w.data.toNat

/-- `__invert__`: `~self._data`. -/
def invert (w : IntResponse) : Int := pyInvert w.data

end IntResponse

/-! ## Python dict primitives

A Python dict with string keys is modelled as an insertion-ordered
association list.  Each primitive is the operation Python applies to a
bare `dict`; the wrapper methods of `DictResponse` delegate to the same
primitives, which is what the source code's `self._data.keys()` style
expresses. -/

/-- An insertion-ordered Python dict with string keys and `α` values. -/
abbrev PyDict (α : Type) : Type := List (String × α)

/-- `dict.__getitem__` lookup: first entry with the given key (`none`
models `KeyError`). -/
def pyGet? {α : Type} (d : PyDict α) (k : String) : Option α :=
  match d with
  | [] => none
  | (k', v) :: t => if k' == k then some v else pyGet? t k

/-- `list(d.keys())`: keys in insertion order. -/
def pyKeys {α : Type} (d : PyDict α) : List String :=
  d.map Prod.fst

/-- `list(d.values())`: values in insertion order. -/
def pyValues {α : Type} (d : PyDict α) : List α :=
  d.map Prod.snd

/-- `list(d.items())`: key-value pairs in insertion order. -/
def pyItems {α : Type} (d : PyDict α) : List (String × α) :=
  d

/-- `iter(d)`: Python iterates a dict's keys. -/
def pyIter {α : Type} (d : PyDict α) : List String :=
  pyKeys d

/-- `len(d)`. -/
def pyLen {α : Type} (d : PyDict α) : Nat :=
  d.length

/-- `key in d`. -/
def pyHasKey {α : Type} (d : PyDict α) (k : String) : Bool :=
  (pyGet? d k).isSome

/-- `d.get(key, default)`; `default` is `none` for Python's `None`. -/
def pyGetD {α : Type} (d : PyDict α) (k : String) (default : Option α) : Option α :=
  match pyGet? d k with
  | some v => some v
  | none => default

/-- `d[key] = value`: replace the value at an existing key in place,
else append the new pair (Python dicts keep insertion order and keep an
updated key's position). -/
def pySet {α : Type} (d : PyDict α) (k : String) (v : α) : PyDict α :=
  match d with
  | [] => [(k, v)]
  | (k', v') :: t => if k' == k then (k', v) :: t else (k', v') :: pySet t k v

/-- `d.update(other)`: set each of `other`'s pairs in order. -/
def pyUpdate {α : Type} (d other : PyDict α) : PyDict α :=
  other.foldl (fun acc p => pySet acc p.1 p.2) d

/-- Remove the entry with the given key (helper for `pop`). -/
def pyRemove {α : Type} (d : PyDict α) (k : String) : PyDict α :=
  match d with
  | [] => []
  | (k', v') :: t => if k' == k then t else (k', v') :: pyRemove t k

/-- `d.pop(key)` / `d.pop(key, default)`: remove and return the value;
with no default a missing key is `KeyError` (modelled as `none`),
otherwise the default is returned and the dict is unchanged. -/
def pyPop {α : Type} (d : PyDict α) (k : String) (default : Option α) :
    Option (α × PyDict α) :=
  match pyGet? d k with
  | some v => some (v, pyRemove d k)
  | none =>
    match default with
    | some dv => some (dv, d)
    | none => none

/-- `d.setdefault(key, value)`: return the existing value (inserting
and returning `value` when the key is absent), as a
(returned value, new dict) pair. -/
def pySetdefault {α : Type} (d : PyDict α) (k : String) (v : α) :
    α × PyDict α :=
  match pyGet? d k with
  | some v' => (v', d)
  | none => (v, d ++ [(k, v)])

/-- `d.popitem()`: remove and return the last-inserted pair (Python 3
LIFO order); an empty dict is `KeyError` (modelled as `none`). -/
def pyPopItem {α : Type} (d : PyDict α) : Option ((String × α) × PyDict α) :=
  match d.getLast? with
  | some p => some (p, d.dropLast)
  | none => none

/-- `d.clear()`. -/
def pyClear {α : Type} (_ : PyDict α) : PyDict α :=
  []

/-- `d == other` on dicts: same number of entries and every entry of
`d` is present in `other` with an equal value (on key-distinct dicts
this is Python's unordered dict equality). -/
def pyDictBeq {α : Type} [BEq α] (d other : PyDict α) : Bool :=
  pyLen d == pyLen other &&
    d.all fun p =>
      match pyGet? other p.1 with
      | some v => v == p.2
      | none => false

/-- `d < other` on dicts: unsupported between dicts in Python 3
(`TypeError`, modelled as `none`). -/
def pyDictLt {α : Type} (_ _ : PyDict α) : Option Bool :=
  none

/-! ## `DictResponse` -/

/-- `DictResponse`: wraps a dict `data` value (`self._data`, the cleaned
value stored by `_from_cleaned`).

Modelled from the spec: `ubersmith.utils.ObjDict` is absent from the
sources; per the spec `_data` exposes the underlying cleaned value
itself, and the mapping protocol's write operations "mutate the
underlying wrapped value in place", so `_data` is modelled as the
wrapped dict and mutation as state passing on it. -/
structure DictResponse (α : Type) where
  data : PyDict α

namespace DictResponse

/-- `keys()`: `self._data.keys()`. -/
def keys {α : Type} (w : DictResponse α) : List String := pyKeys w.data

/-- `values()`: `self._data.values()`. -/
def values {α : Type} (w : DictResponse α) : List α := pyValues w.data

/-- `items()`: `self._data.items()`. -/
def items {α : Type} (w : DictResponse α) : List (String × α) := pyItems w.data

/-- `get(key, default=None)`: `self._data.get(key, default)`. -/
def get {α : Type} (w : DictResponse α) (k : String) (default : Option α) :
    Option α :=
  pyGetD w.data k default

/-- `update(d)`: `self._data.update(d)` — mutates the wrapped value and
returns `None` (as `dict.update` itself does). -/
def update {α : Type} (w : DictResponse α) (other : PyDict α) : DictResponse α :=
  ⟨pyUpdate w.data other⟩

/-- `setdefault(key, value)`: calls `self._data.setdefault(key, value)`
but has no `return` statement, so the wrapper returns `None` (modelled
as `none`) while performing the mutation. -/
def setdefault {α : Type} (w : DictResponse α) (k : String) (v : α) :
    Option α × DictResponse α :=
  (none, ⟨(pySetdefault w.data k v).2⟩)

/-- `pop(key)` / `pop(key, default)`: delegates both forms to
`self._data.pop`. -/
def pop {α : Type} (w : DictResponse α) (k : String) (default : Option α) :
    Option (α × DictResponse α) :=
  (pyPop w.data k default).map fun p => (p.1, ⟨p.2⟩)

/-- `popitem()`: `self._data.popitem()`. -/
def popitem {α : Type} (w : DictResponse α) :
    Option ((String × α) × DictResponse α) :=
  (pyPopItem w.data).map fun p => (p.1, ⟨p.2⟩)

/-- `clear()`: `self._data.clear()`. -/
def clear {α : Type} (w : DictResponse α) : DictResponse α :=
  ⟨pyClear w.data⟩

/-- `__setitem__`: `self._data[key] = value`. -/
def setitem {α : Type} (w : DictResponse α) (k : String) (v : α) : DictResponse α :=
  ⟨pySet w.data k v⟩

/-- `__iter__`: `iter(self._data)`. -/
def iter {α : Type} (w : DictResponse α) : List String := pyIter w.data

/-- `__getitem__`: `self._data[key]`. -/
def getitem {α : Type} (w : DictResponse α) (k : String) : Option α :=
  pyGet? w.data k

/-- `__len__`: `len(self._data)`. -/
def len {α : Type} (w : DictResponse α) : Nat := pyLen w.data

/-- `__eq__`: `self._data == other`. -/
def eq {α : Type} [BEq α] (w : DictResponse α) (other : PyDict α) : Bool :=
  pyDictBeq w.data other

/-- `__lt__`: `self._data < other`. -/
def lt {α : Type} (w : DictResponse α) (other : PyDict α) : Option Bool :=
  pyDictLt w.data other

/-- `__contains__`: `item in self._data`. -/
def contains {α : Type} (w : DictResponse α) (k : String) : Bool :=
  pyHasKey w.data k

end DictResponse

/-! ## `MethodIndex` -/

/-- Python exceptions surfaced by the index model. -/
inductive PyErr where
  /-- `AttributeError` from reading an attribute that is not yet set. -/
  | attributeError
  /-- `IndexError` from `[0]` on an empty list. -/
  | indexError
  deriving Repr, DecidableEq

/-- `MethodIndex._format_name(version)`: `"%s.json" % version`. -/
def formatName (version : String) : String :=
  version ++ ".json"

/-- Python `s.split('.')` over character lists (single-character
separator; a split always yields at least one, possibly empty, part). -/
def splitOnChar (sep : Char) : List Char → List (List Char)
  | [] => [[]]
  | c :: rest =>
    if c == sep then [] :: splitOnChar sep rest
    else
      match splitOnChar sep rest with
      | [] => [[c]]
      | h :: t => (c :: h) :: t

/-- Join character-list parts with a `'.'` separator (inverse of
`splitOnChar '.'` on dot-free parts). -/
def interDot : List (List Char) → List Char
  | [] => []
  | [l] => l
  | l :: rest => l ++ '.' :: interDot rest

/-- `x.rpartition('.')[0]`: everything before the last dot (empty when
there is no dot). -/
def fileStem (s : String) : String :=
  String.mk (interDot ((splitOnChar '.' s.data).dropLast))

/-- `int(token)` on a decimal-digit token, as a fold over the digits.
(A non-digit token would raise `ValueError` in Python; index files are
named by dotted numeric versions.) -/
def decValue (l : List Char) : Nat :=
  l.foldl (fun acc c => acc * 10 + (c.toNat - 48)) 0

/-- The sort key of `_get_latest_index`:
`tuple(map(int, x.rpartition('.')[0].split('.')))`. -/
def versionKey (fname : String) : List Nat :=
  (splitOnChar '.' (fileStem fname).data).map decValue

/-- Python `<` on tuples of ints: lexicographic, a strict prefix is
smaller. -/
def natListLt : List Nat → List Nat → Bool
  | [], [] => false
  | [], _ :: _ => true
  | _ :: _, [] => false
  | a :: as, b :: bs =>
    if a < b then true
    else if b < a then false
    else natListLt as bs

/-- The first element of `sorted(available, key=versionKey,
reverse=True)`: the earliest-listed file with the greatest version key
(Python's sort is stable, so ties keep the original order). -/
def latestPick (best : String) : List String → String
  | [] => best
  | x :: rest =>
    if natListLt (versionKey best) (versionKey x) then latestPick x rest
    else latestPick best rest

/-- `MethodIndex._get_latest_index()`:
`sorted(available, key=..., reverse=True)[0]`; `[0]` on an empty list
is an `IndexError`, modelled as `none`. -/
def latestIndex : List String → Option String
  | [] => none
  | x :: rest => some (latestPick x rest)

/-- The `MethodIndex.version` property: `self.index_name.rpartition('.')[0]`
when `self.index_name` is set and truthy, `'Unknown'` when it is set
but falsy — and an `AttributeError` when `self.index_name` has not been
assigned yet (`version` is read inside `_get_index_name`, which
`__init__` calls to produce the value it will assign to
`self.index_name`). -/
def versionOf (indexName : Option String) : Except PyErr String :=
  match indexName with
  | none => .error .attributeError
  | some n => .ok (if n = "" then "Unknown" else fileStem n)

/-- `MethodIndex._get_index_name()`: return the wanted index name when
it is among the available files; otherwise format a warning message
(which interpolates `self.version`) and return the latest available
index.  The result pairs the chosen file name with whether the warning
was emitted; `indexName` is the current value of `self.index_name`
(`none` = not yet assigned, as during `__init__`). -/
def getIndexName (wanted : String) (available : List String)
    (indexName : Option String) : Except PyErr (String × Bool) :=
  if available.contains wanted then
    .ok (wanted, false)
  else
    match versionOf indexName with
    | .error e => .error e
    | .ok _ =>
      match latestIndex available with
      | none => .error .indexError
      | some l => .ok (l, true)

/-! ## Helper lemmas -/

theorem range_three : List.range 3 = [0, 1, 2] := rfl

theorem retryLoop_cons_sends_pos (rs : Nat → TransportResponse) (a i : Nat)
    (l : List Nat) : 1 ≤ (retryLoop rs a (i :: l)).1 := by
  cases h : isTokenResponse (rs i) with
  | true => by_cases h2 : i < a - 1 <;> simp [retryLoop, h, h2]
  | false => simp [retryLoop, h]

theorem classifyResponse_ne_requestError (r : TransportResponse) :
    classifyResponse r ≠ .error .requestError := by
  unfold classifyResponse
  split
  · split
    · split <;> simp
    · simp
  · simp

theorem retryLoop_first_break (rs : Nat → TransportResponse)
    (h : isTokenResponse (rs 0) = false) :
    retryLoop rs 3 (List.range 3) = (1, [], some (rs 0)) := by
  rw [range_three]
  simp [retryLoop, h]

theorem processRequest_terminal (methods : List String) (method : String)
    (rs : Nat → TransportResponse) (hm : method ∈ methods)
    (h : isTokenResponse (rs 0) = false) :
    processRequest methods method rs = ⟨classifyResponse (rs 0), 1, []⟩ := by
  simp [processRequest, hm, retryLoop_first_break rs h]

/-! ## Claims -/

/-- C1: when the transport responses of three consecutive attempts are
all token responses (`text/html` content-type containing the marker
`Updating Token`), `process_request` raises `UpdatingTokenResponse`
after exactly 3 sends, with a 2-second sleep after attempt 1 and after
attempt 2 and none after attempt 3; and any attempt whose response is
not a token response terminates the retry loop immediately — `i + 1`
sends in total and no further attempts, the terminal response being
handed to the error classification. -/
theorem process_request_token_retry_policy
    (methods : List String) (method : String) (rs : Nat → TransportResponse)
    (hm : method ∈ methods) :
    ((∀ i, i < 3 → isTokenResponse (rs i) = true) →
      processRequest methods method rs =
        ⟨.error .updatingTokenResponse, 3, [2, 2]⟩) ∧
    (∀ i, i < 3 → (∀ j, j < i → isTokenResponse (rs j) = true) →
      isTokenResponse (rs i) = false →
      retryLoop rs 3 (List.range 3) = (i + 1, List.replicate i 2, some (rs i)) ∧
      (processRequest methods method rs).sends = i + 1 ∧
      (processRequest methods method rs).outcome = classifyResponse (rs i)) := by
  constructor
  · intro h
    have h0 := h 0 (by omega)
    have h1 := h 1 (by omega)
    have h2 := h 2 (by omega)
    simp [processRequest, hm, range_three, retryLoop, h0, h1, h2]
  · intro i hi hprev hcur
    interval_cases i
    · have hloop := retryLoop_first_break rs hcur
      rw [hloop]
      simp [processRequest, hm, hloop]
    · have h0 := hprev 0 (by omega)
      have hloop : retryLoop rs 3 (List.range 3) = (2, [2], some (rs 1)) := by
        rw [range_three]
        simp [retryLoop, h0, hcur]
      rw [hloop]
      simp [processRequest, hm, hloop]
    · have h0 := hprev 0 (by omega)
      have h1 := hprev 1 (by omega)
      have hloop : retryLoop rs 3 (List.range 3) = (3, [2, 2], some (rs 2)) := by
        rw [range_three]
        simp [retryLoop, h0, h1, hcur]
      rw [hloop]
      simp [processRequest, hm, hloop]

/-- C1 witness: three token pages raise `UpdatingTokenResponse` with
sleeps `[2, 2]`; a non-token first response terminates after one send. -/
theorem process_request_token_retry_policy_witness :
    processRequest ["uber.method_list"] "uber.method_list"
        (fun _ => ⟨some "text/html", "please wait: Updating Token", false, none, none⟩) =
      ⟨.error .updatingTokenResponse, 3, [2, 2]⟩ ∧
    (processRequest ["uber.method_list"] "uber.method_list"
        (fun _ => ⟨some "application/json", "{}", true, none, none⟩)).sends = 1 := by
  constructor
  · exact (process_request_token_retry_policy _ _ _ (by decide)).1
      (fun i _ => by decide)
  · exact ((process_request_token_retry_policy _ _ _ (by decide)).2 0 (by decide)
      (fun j hj => absurd hj (by omega)) (by decide)).2.1

/-- C2: on a terminal response whose content-type is
`application/json` and whose decoded body has a falsy `status`,
`process_request` raises `MaintenanceResponse` exactly when
`error_code == 1` and `error_message` is the exact maintenance string,
and raises `ResponseError` carrying the decoded body otherwise. -/
theorem process_request_json_error_classification
    (methods : List String) (method : String) (rs : Nat → TransportResponse)
    (hm : method ∈ methods)
    (hct : (rs 0).contentType = some "application/json")
    (hst : (rs 0).statusTruthy = false) :
    ((processRequest methods method rs).outcome =
        .error (.maintenanceResponse (rs 0)) ↔
      ((rs 0).errorCode = some 1 ∧
        (rs 0).errorMessage = some maintenanceMessage)) ∧
    (¬((rs 0).errorCode = some 1 ∧
        (rs 0).errorMessage = some maintenanceMessage) →
      (processRequest methods method rs).outcome =
        .error (.responseError (rs 0))) := by
  have hterm : isTokenResponse (rs 0) = false := by
    have hnh : strContains "application/json" "text/html" = false := by decide
    simp [isTokenResponse, hct, hnh]
  rw [processRequest_terminal methods method rs hm hterm]
  by_cases hc : (rs 0).errorCode = some 1 ∧
      (rs 0).errorMessage = some maintenanceMessage
  · simp [classifyResponse, hct, hst, hc]
  · simp [classifyResponse, hct, hst, hc]

/-- C2 witness: the maintenance signature raises `MaintenanceResponse`;
any other falsy-status body raises `ResponseError`. -/
theorem process_request_json_error_classification_witness :
    (processRequest ["uber.method_list"] "uber.method_list"
        (fun _ => ⟨some "application/json", "e", false, some 1,
          some maintenanceMessage⟩)).outcome =
      .error (.maintenanceResponse
        ⟨some "application/json", "e", false, some 1, some maintenanceMessage⟩) ∧
    (processRequest ["uber.method_list"] "uber.method_list"
        (fun _ => ⟨some "application/json", "e", false, some 3,
          some "Invalid login or password."⟩)).outcome =
      .error (.responseError
        ⟨some "application/json", "e", false, some 3,
          some "Invalid login or password."⟩) := by
  constructor
  · exact (process_request_json_error_classification _ _ _ (by decide)
      (by decide) (by decide)).1.mpr (by decide)
  · exact (process_request_json_error_classification _ _ _ (by decide)
      (by decide) (by decide)).2 (by decide)

/-- C8: a method name not in the handler's `METHODS` registry raises
`RequestError` with zero sends (no network call, no retry); a method
name in the registry passes validation — at least one send happens and
the outcome is never `RequestError`. -/
theorem process_request_method_validation
    (methods : List String) (method : String) (rs : Nat → TransportResponse) :
    (method ∉ methods →
      processRequest methods method rs = ⟨.error .requestError, 0, []⟩) ∧
    (method ∈ methods →
      1 ≤ (processRequest methods method rs).sends ∧
      (processRequest methods method rs).outcome ≠ .error .requestError) := by
  constructor
  · intro h
    simp [processRequest, h]
  · intro h
    have hs : 1 ≤ (retryLoop rs 3 (List.range 3)).1 := by
      rw [range_three]
      exact retryLoop_cons_sends_pos rs 3 0 [1, 2]
    cases hterm : (retryLoop rs 3 (List.range 3)).2.2 with
    | none => simp [processRequest, h, hterm, hs]
    | some r => simp [processRequest, h, hterm, hs, classifyResponse_ne_requestError r]

/-- C8 witness: an unknown method is rejected with zero sends; a known
method performs a send and does not raise `RequestError`. -/
theorem process_request_method_validation_witness :
    processRequest ["uber.method_list"] "client.get"
        (fun _ => ⟨some "application/json", "{}", true, none, none⟩) =
      ⟨.error .requestError, 0, []⟩ ∧
    1 ≤ (processRequest ["uber.method_list"] "uber.method_list"
        (fun _ => ⟨some "application/json", "{}", true, none, none⟩)).sends := by
  constructor
  · exact (process_request_method_validation _ _ _).1 (by decide)
  · exact ((process_request_method_validation _ _ _).2 (by decide)).1

/-- C10: the JSON-error check compares the content-type header for
exact equality with `'application/json'`: a falsy-status body whose
content-type contains `application/json` with extra parameters (and
does not contain `text/html`) is returned as a successful raw response
rather than raising; token detection, in contrast, tests `'text/html'`
as a substring of the content-type. -/
theorem process_request_content_type_exact_match
    (methods : List String) (method : String) (rs : Nat → TransportResponse)
    (ct : String)
    (hm : method ∈ methods)
    (hct : (rs 0).contentType = some ct)
    (_hsub : strContains ct "application/json" = true)
    (hne : ct ≠ "application/json")
    (hhtml : strContains ct "text/html" = false)
    (_hst : (rs 0).statusTruthy = false) :
    (processRequest methods method rs).outcome = .ok (rs 0) ∧
    ∀ r : TransportResponse,
      isTokenResponse r =
        (strContains (r.contentType.getD "") "text/html" &&
          strContains r.content "Updating Token") := by
  have htok : isTokenResponse (rs 0) = false := by
    simp [isTokenResponse, hct, hhtml]
  rw [processRequest_terminal methods method rs hm htok]
  constructor
  · simp [classifyResponse, hct, hne]
  · intro r
    rfl

/-- C10 witness: `content-type: application/json; charset=utf-8` with a
falsy-status body yields a successful return, not an error. -/
theorem process_request_content_type_exact_match_witness :
    (processRequest ["uber.method_list"] "uber.method_list"
        (fun _ => ⟨some "application/json; charset=utf-8", "e", false, some 3,
          some "error"⟩)).outcome =
      .ok ⟨some "application/json; charset=utf-8", "e", false, some 3,
        some "error"⟩ := by
  exact (process_request_content_type_exact_match _ _ _
    "application/json; charset=utf-8" (by decide) (by decide) (by decide)
    (by decide) (by decide) (by decide)).1

/-- C4 counterexample: with `required_fields = [('a','b'), 'c']` and
supplied data `{'a': ...}`, `validate` examines only the first missing
field (the group, whose intersection is non-empty) and returns `True`,
although the flat required field `'c'` is absent — so `validate` does
not return `True` iff all flat fields are present and all groups
intersect. -/
theorem validate_first_missing_counterexample :
    validate [.group ["a", "b"], .flat "c"] ["a"] = true ∧
    validateSpec [.group ["a", "b"], .flat "c"] ["a"] = false := by
  constructor
  · rfl
  · rfl

/-- C4 (amended): `validate()` examines at most the first missing
required field (in the determinized iteration order of
`set(required_fields) - set(request_data)`): it returns `True` when no
required field is missing, `False` when the first missing field is
flat, and the emptiness of the group's intersection with the supplied
keys when the first missing field is a group; `render()` raises
`ValidationError` exactly when `validate()` returns `False`, and then
performs no network send. -/
theorem validate_checks_first_missing_field
    (required : List ReqField) (keys : List String)
    (methods : List String) (method : String)
    (rs : Nat → TransportResponse) (dataOf : Nat → PyVal) :
    (missingFields required keys = [] → validate required keys = true) ∧
    (∀ n rest, missingFields required keys = .flat n :: rest →
      validate required keys = false) ∧
    (∀ g rest, missingFields required keys = .group g :: rest →
      validate required keys = g.any keys.contains) ∧
    ((render required keys methods method rs dataOf).1 = .validationError ↔
      validate required keys = false) ∧
    (validate required keys = false →
      render required keys methods method rs dataOf = (.validationError, 0)) := by
  refine ⟨?_, ?_, ?_, ?_, ?_⟩
  · intro h
    simp [validate, h]
  · intro n rest h
    simp [validate, h]
  · intro g rest h
    simp [validate, h]
  · cases hv : validate required keys with
    | false => simp [render, hv]
    | true =>
      simp only [render, hv, Bool.not_true]
      cases houtcome : (processRequest methods method rs).outcome <;>
        simp [houtcome]
  · intro hv
    simp [render, hv]

/-- C4 witness: a single missing flat field makes `validate` return
`False` and `render` raise `ValidationError` with zero sends. -/
theorem validate_checks_first_missing_field_witness :
    validate [.flat "client_id"] [] = false ∧
    render [.flat "client_id"] [] ["client.get"] "client.get"
        (fun _ => ⟨some "application/json", "{}", true, none, none⟩)
        (fun _ => .vNone) = (.validationError, 0) := by
  constructor
  · exact (validate_checks_first_missing_field [.flat "client_id"] []
      ["client.get"] "client.get"
      (fun _ => ⟨some "application/json", "{}", true, none, none⟩)
      (fun _ => .vNone)).2.1 "client_id" [] (by decide)
  · exact (validate_checks_first_missing_field [.flat "client_id"] []
      ["client.get"] "client.get"
      (fun _ => ⟨some "application/json", "{}", true, none, none⟩)
      (fun _ => .vNone)).2.2.2.2 (by decide)

/-- C3: at a validated call whose request succeeds with a JSON mapping
payload, `render` returns the uncleaned raw response (`self.clean()` in
`render` is commented out), although `clean` on that very response
would produce the typed dict wrapper — contradicting `render`'s own
docstring ("Validate, process, clean and return the result of the
call.") and the system tests, which expect cleaned values. -/
theorem render_skips_clean_at_failing_input :
    (render [] ["client_id"] ["client.get"] "client.get"
        (fun _ => ⟨some "application/json", "body", true, none, none⟩)
        (fun _ => .vDict [("clientid", .vStr "50")])).1 =
      .rawResponse ⟨⟨some "application/json", "body", true, none, none⟩,
        .vDict [("clientid", .vStr "50")]⟩ ∧
    clean none ⟨⟨some "application/json", "body", true, none, none⟩,
        .vDict [("clientid", .vStr "50")]⟩ =
      .dictR ⟨⟨some "application/json", "body", true, none, none⟩,
          .vDict [("clientid", .vStr "50")]⟩
        (.vDict [("clientid", .vStr "50")]) := by
  constructor
  · rfl
  · rfl

/-- C5: cleaning selects the wrapper by the exact runtime type of the
cleaned value when the content-type is `application/json` — dict gives
the mapping wrapper, int the integer wrapper, anything else the base
wrapper — and any other content-type always gives a `FileResponse`
whose `_data` is the raw transport body. -/
theorem clean_wrapper_selection
    (r : RawResponse) (cleaner : Option (PyVal → PyVal)) :
    (r.transport.contentType = some "application/json" →
      (((cleaner.getD id) r.data).pyType = .tDict →
        clean cleaner r = .dictR r ((cleaner.getD id) r.data)) ∧
      (((cleaner.getD id) r.data).pyType = .tInt →
        clean cleaner r = .intR r ((cleaner.getD id) r.data)) ∧
      (((cleaner.getD id) r.data).pyType ≠ .tDict →
        ((cleaner.getD id) r.data).pyType ≠ .tInt →
        clean cleaner r = .baseR r ((cleaner.getD id) r.data))) ∧
    (r.transport.contentType ≠ some "application/json" →
      clean cleaner r = .fileR r ∧
      (clean cleaner r).dataOf = .inr r.transport.content) := by
  constructor
  · intro hct
    refine ⟨?_, ?_, ?_⟩
    · intro h
      simp [clean, hct, h]
    · intro h
      simp [clean, hct, h]
    · intro hd hi
      cases hpt : ((cleaner.getD id) r.data).pyType <;>
        simp_all [clean, hct, hpt]
  · intro hct
    constructor
    · simp [clean, hct]
    · simp [clean, hct, TypedResponse.dataOf]

/-- C5 witness: an integer payload under JSON content-type gives the
integer wrapper; a PDF content-type gives the file wrapper over the raw
body. -/
theorem clean_wrapper_selection_witness :
    clean none ⟨⟨some "application/json", "body", true, none, none⟩, .vInt 42⟩ =
      .intR ⟨⟨some "application/json", "body", true, none, none⟩, .vInt 42⟩
        (.vInt 42) ∧
    clean none ⟨⟨some "application/pdf", "PDF data", true, none, none⟩,
        .vNone⟩ =
      .fileR ⟨⟨some "application/pdf", "PDF data", true, none, none⟩, .vNone⟩ := by
  constructor
  · exact ((clean_wrapper_selection
      ⟨⟨some "application/json", "body", true, none, none⟩, .vInt 42⟩ none).1
      rfl).2.1 rfl
  · exact ((clean_wrapper_selection
      ⟨⟨some "application/pdf", "PDF data", true, none, none⟩, .vNone⟩ none).2
      (by simp)).1

theorem pyLe_from_lt_eq (n m : Int) : (pyLt n m || pyEq n m) = pyLe n m := by
  by_cases h1 : n < m <;> by_cases h2 : n = m <;>
    simp [pyLt, pyEq, pyLe, h1, h2] <;> omega

theorem pyGt_from_lt_eq (n m : Int) : (!(pyLt n m || pyEq n m)) = pyGt n m := by
  by_cases h1 : n < m <;> by_cases h2 : n = m <;>
    simp [pyLt, pyEq, pyGt, h1, h2] <;> omega

theorem pyGe_from_lt (n m : Int) : (!pyLt n m) = pyGe n m := by
  by_cases h1 : n < m
  · have h2 : ¬ m ≤ n := by omega
    simp [pyLt, pyGe, h1, h2]
  · have h2 : m ≤ n := by omega
    simp [pyLt, pyGe, h1, h2]

/-- C6: every arithmetic operation, comparison and conversion of
`IntResponse` wrapping `n` yields the same result as the same Python
primitive applied to the bare integer `n`, and the rational-protocol
properties are `numerator = n`, `denominator = 1`, `real = n`,
`imag = 0`.  (`k` ranges over the non-negative exponents and shift
counts.) -/
theorem int_response_transparent (n m : Int) (k : Nat) :
    IntResponse.numerator ⟨n⟩ = n ∧
    IntResponse.denominator ⟨n⟩ = 1 ∧
    IntResponse.real ⟨n⟩ = n ∧
    IntResponse.imag ⟨n⟩ = 0 ∧
    IntResponse.toInt ⟨n⟩ = n ∧
    IntResponse.index ⟨n⟩ = n ∧
    IntResponse.toFloat ⟨n⟩ = pyFloat n ∧
    IntResponse.eq ⟨n⟩ m = pyEq n m ∧
    IntResponse.lt ⟨n⟩ m = pyLt n m ∧
    IntResponse.le ⟨n⟩ m = pyLe n m ∧
    IntResponse.gt ⟨n⟩ m = pyGt n m ∧
    IntResponse.ge ⟨n⟩ m = pyGe n m ∧
    IntResponse.add ⟨n⟩ m = n + m ∧
    IntResponse.sub ⟨n⟩ m = n - m ∧
    IntResponse.rsub ⟨n⟩ m = m - n ∧
    IntResponse.mul ⟨n⟩ m = n * m ∧
    IntResponse.floordiv ⟨n⟩ m = pyFloorDiv n m ∧
    IntResponse.rfloordiv ⟨n⟩ m = pyFloorDiv m n ∧
    IntResponse.truediv ⟨n⟩ m = pyTrueDiv (pyFloat n) m ∧
    IntResponse.rtruediv ⟨n⟩ m = pyTrueDiv (pyFloat m) n ∧
    IntResponse.mod ⟨n⟩ m = pyModulo n m ∧
    IntResponse.rmod ⟨n⟩ m = pyModulo m n ∧
    IntResponse.pow ⟨n⟩ k = pyPow n k ∧
    IntResponse.rpow ⟨n⟩ m = pyPow m n.toNat ∧
    IntResponse.absOp ⟨n⟩ = |n| ∧
    IntResponse.neg ⟨n⟩ = -n ∧
    IntResponse.pos ⟨n⟩ = n ∧
    IntResponse.divmod ⟨n⟩ m = pyDivMod n m ∧
    IntResponse.rdivmod ⟨n⟩ m = pyDivMod m n ∧
    IntResponse.andOp ⟨n⟩ m = pyAnd n m ∧
    IntResponse.orOp ⟨n⟩ m = pyOr n m ∧
    IntResponse.xorOp ⟨n⟩ m = pyXor n m ∧
    IntResponse.lshift ⟨n⟩ k = pyShiftL n k ∧
    IntResponse.rlshift ⟨n⟩ m = pyShiftL m n.toNat ∧
    IntResponse.rshift ⟨n⟩ k = pyShiftR n k ∧
    IntResponse.rrshift ⟨n⟩ m = pyShiftR m n.toNat ∧
    IntResponse.invert ⟨n⟩ = pyInvert n :=
  ⟨rfl, rfl, rfl, rfl, rfl, rfl, rfl, rfl, rfl,
    pyLe_from_lt_eq n m, pyGt_from_lt_eq n m, pyGe_from_lt n m,
    rfl, rfl, rfl, rfl, rfl, rfl, rfl, rfl, rfl, rfl, rfl, rfl, rfl, rfl,
    rfl, rfl, rfl, rfl, rfl, rfl, rfl, rfl, rfl, rfl, rfl⟩

theorem pyGet?_pySet_self {α : Type} (d : PyDict α) (k : String) (v : α) :
    pyGet? (pySet d k v) k = some v := by
  induction d with
  | nil => simp [pySet, pyGet?]
  | cons p t ih =>
    obtain ⟨k', v'⟩ := p
    by_cases h : k' == k
    · simp [pySet, pyGet?, h]
    · simp only [pySet, h]
      simp only [pyGet?, h]
      simpa using ih

/-- C7 counterexample: `DictResponse.setdefault` performs the mutation
but swallows the return value — on the bare mapping `{}`,
`setdefault('a', 1)` returns `1`, while the wrapper's `setdefault`
returns `None`, so the wrapper does not behave exactly as the bare
mapping for `setdefault`. -/
theorem dict_setdefault_return_counterexample :
    (DictResponse.setdefault (⟨[]⟩ : DictResponse Int) "a" 1).1 = none ∧
    (pySetdefault ([] : PyDict Int) "a" 1).1 = 1 ∧
    (DictResponse.setdefault (⟨[]⟩ : DictResponse Int) "a" 1).1 ≠
      some (pySetdefault ([] : PyDict Int) "a" 1).1 := by
  refine ⟨rfl, rfl, ?_⟩
  simp [DictResponse.setdefault]

/-- C7 (amended): every mapping operation of `DictResponse` — keys,
values, items, get, update, pop, setdefault, popitem, clear, setitem,
iteration, length, containment, equality, ordering — delegates to the
same primitive applied to the bare wrapped dict, and the write
operations replace the wrapped value by the primitive's updated dict
(in-place mutation as state passing), so a subsequent read observes
the write; the one deviation is that `setdefault` returns `None`
instead of the stored value (while still performing the mutation). -/
theorem dict_response_delegates (α : Type) [BEq α] (d other : PyDict α)
    (k : String) (v : α) (default : Option α) :
    DictResponse.keys ⟨d⟩ = pyKeys d ∧
    DictResponse.values ⟨d⟩ = pyValues d ∧
    DictResponse.items ⟨d⟩ = pyItems d ∧
    DictResponse.get ⟨d⟩ k default = pyGetD d k default ∧
    DictResponse.update ⟨d⟩ other = ⟨pyUpdate d other⟩ ∧
    DictResponse.pop ⟨d⟩ k default =
      (pyPop d k default).map (fun p => (p.1, ⟨p.2⟩)) ∧
    DictResponse.setdefault ⟨d⟩ k v = (none, ⟨(pySetdefault d k v).2⟩) ∧
    DictResponse.popitem ⟨d⟩ = (pyPopItem d).map (fun p => (p.1, ⟨p.2⟩)) ∧
    DictResponse.clear ⟨d⟩ = ⟨pyClear d⟩ ∧
    DictResponse.setitem ⟨d⟩ k v = ⟨pySet d k v⟩ ∧
    DictResponse.iter ⟨d⟩ = pyIter d ∧
    DictResponse.getitem ⟨d⟩ k = pyGet? d k ∧
    DictResponse.len ⟨d⟩ = pyLen d ∧
    DictResponse.eq ⟨d⟩ other = pyDictBeq d other ∧
    DictResponse.lt ⟨d⟩ other = pyDictLt d other ∧
    DictResponse.contains ⟨d⟩ k = pyHasKey d k ∧
    DictResponse.getitem (DictResponse.setitem ⟨d⟩ k v) k = some v :=
  ⟨rfl, rfl, rfl, rfl, rfl, rfl, rfl, rfl, rfl, rfl, rfl, rfl, rfl, rfl, rfl,
    rfl, pyGet?_pySet_self d k v⟩

/-- C9: `_get_index_name` returns the exact-version file when present;
but on a version mismatch the warning message it formats reads
`self.version`, whose getter reads `self.index_name` — an attribute
`__init__` has not assigned yet at its only call site — so the
fallback raises `AttributeError` instead of warning and returning the
highest available version.  The highest-version selection itself
(`_get_latest_index`, dotted-integer-tuple descending) is as specified
when it is reachable (`self.index_name` set, e.g. `some "x.json"`
below). -/
theorem method_index_fallback_attribute_error :
    getIndexName "4.1.0.json" ["4.0.0.json", "3.9.0.json"] none =
      .error .attributeError ∧
    getIndexName "4.0.0.json" ["4.0.0.json", "3.9.0.json"] none =
      .ok ("4.0.0.json", false) ∧
    getIndexName "4.11.0.json" ["4.2.0.json", "4.10.1.json"] (some "x.json") =
      .ok ("4.10.1.json", true) ∧
    latestIndex ["3.9.0.json", "4.0.0.json"] = some "4.0.0.json" := by
  refine ⟨?_, ?_, ?_, ?_⟩ <;> decide

end Ubersmith
